import Mathlib

/-
  Verification development for the cielo-api-rs client library.

  The embedding below translates src/src/lib.rs into Lean:
  the enums Chain and TxType with their to_get_format mappings, the
  CieloRequest record, the URL serializer construct_url_from_req_object,
  and the pre-network portion of submit_cielo_get_request (which in the
  source unwraps req.chains and req.types before building the URL and
  sending the GET request; a failed unwrap or a failed expect aborts the
  call, which we model as an explicit panics outcome).
-/

namespace CieloApi

/-- Base URL for making GET requests to the Cielo API (lib.rs line 13). -/
def BASE_URL : String := "https://feed-api.cielo.finance/api/v1/feed?"

/-- Transaction-type enum (lib.rs lines 20-41). -/
inductive TxType where
  | Bridge
  | ContractCreation
  | ContractInteraction
  | Flashloan
  | Lending
  | Lp
  | NftLending
  | NftLiquidation
  | NftMint
  | NftSweep
  | NftTrade
  | NftTransfer
  | Option
  | Perp
  | Reward
  | Staking
  | SudoPool
  | Swap
  | Transfer
  | Wrap
  deriving DecidableEq, Fintype, Repr

/-- String form of a transaction type in a GET request (lib.rs lines 43-68). -/
def TxType.to_get_format : TxType → String
  | .Bridge => "bridge"
  | .ContractCreation => "contract_creation"
  | .ContractInteraction => "contract_interaction"
  | .Flashloan => "flashloan"
  | .Lending => "lending"
  | .Lp => "lp"
  | .NftLending => "nft_lending"
  | .NftLiquidation => "nft_liquidation"
  | .NftMint => "nft_mint"
  | .NftSweep => "nft_sweep"
  | .NftTrade => "nft_trade"
  | .NftTransfer => "nft_transfer"
  | .Option => "option"
  | .Perp => "perp"
  | .Reward => "reward"
  | .Staking => "staking"
  | .SudoPool => "sudo_pool"
  | .Swap => "swap"
  | .Transfer => "transfer"
  | .Wrap => "wrap"

/-- Chain enum (lib.rs lines 74-79). -/
inductive Chain where
  | Solana
  | Ethereum
  | EvmChain (slug : String)
  deriving DecidableEq, Repr

/-- String form of a chain in a GET request (lib.rs lines 81-89). -/
def Chain.to_get_format : Chain → String
  | .Solana => "solana"
  | .Ethereum => "ethereum"
  | .EvmChain chain => chain

/-- The request record (lib.rs lines 95-108).  Rust usize fields become Nat,
i64 fields become Int; both are only ever rendered in decimal, never
arithmetically combined, so the widths do not matter. -/
structure CieloRequest where
  wallet : Option String
  limit : Option Nat
  list : Option Nat
  chains : Option (List Chain)
  types : Option (List TxType)
  tokens : Option (List String)
  min_usd : Option Nat
  new_trades : Option Bool
  start_from : Option String
  from_timestamp : Option Int
  to_timestamp : Option Int
  deriving DecidableEq, Repr

/-- The Rust pattern `if let Some(x) = field then q.push_str(slice(x))`:
the accumulated URL grows by the slice exactly when the field is present. -/
def pushOpt {α : Type} (q : String) (o : Option α) (slice : α → String) : String :=
  match o with
  | some a => q ++ slice a
  | none => q

/-- The tail of the list-joining loops in lib.rs lines 190-244: every element
after the first is appended as a comma followed by its string form. -/
def joinCommaTail : List String → String
  | [] => ""
  | s :: rest => ("," ++ s) ++ joinCommaTail rest

/-- The full list-joining loop of lib.rs lines 190-244: the element at index 0
is appended as the parameter assignment followed by its string form, every
later element as a comma followed by its string form; an empty list appends
nothing because the loop body never runs. -/
def joinParamList (param : String) : List String → String
  | [] => ""
  | first :: rest => (param ++ first) ++ joinCommaTail rest

/-- The URL serializer (lib.rs lines 160-293), translated step by step: the
wallet check first, then each optional field appended in source order. -/
def construct_url_from_req_object (request : CieloRequest) : Except String String :=
  match request.wallet with
  | none => Except.error "Wallet address is required"
  | some wallet =>
    let q0 := BASE_URL ++ ("wallet=" ++ wallet)
    let q1 := pushOpt q0 request.limit (fun limit => "&limit=" ++ toString limit)
    let q2 := pushOpt q1 request.list (fun list => "&list=" ++ toString list)
    let q3 := pushOpt q2 request.chains
      (fun chains => joinParamList "&chains=" (chains.map Chain.to_get_format))
    let q4 := pushOpt q3 request.types
      (fun types => joinParamList "&txTypes=" (types.map TxType.to_get_format))
    let q5 := pushOpt q4 request.tokens (fun tokens => joinParamList "&tokens=" tokens)
    let q6 := pushOpt q5 request.min_usd (fun min_usd => "&minUSD=" ++ toString min_usd)
    let q7 := pushOpt q6 request.new_trades
      (fun new_trades => if new_trades then "&newTrades=true" else "&newTrades=false")
    let q8 := pushOpt q7 request.start_from (fun start_from => "&startFrom=" ++ start_from)
    let q9 := pushOpt q8 request.from_timestamp
      (fun from_timestamp => "&fromTimestamp=" ++ toString from_timestamp)
    let q10 := pushOpt q9 request.to_timestamp
      (fun to_timestamp => "&toTimestamp=" ++ toString to_timestamp)
    Except.ok q10

/-- Outcome of submit_cielo_get_request up to the network call: either the
function aborts (a failed unwrap or expect in the source), or it reaches the
client.get(url).send() call with the constructed URL. -/
inductive SubmitResult where
  | panics (msg : String)
  | sendsRequest (url : String)
  deriving DecidableEq, Repr

/-- True exactly when the outcome reaches the network call. -/
def attemptsNetworkCall : SubmitResult → Bool
  | .panics _ => false
  | .sendsRequest _ => true

/-- True exactly when the outcome is an abort. -/
def SubmitResult.isPanics : SubmitResult → Bool
  | .panics _ => true
  | .sendsRequest _ => false

/-- The pre-network portion of submit_cielo_get_request (lib.rs lines
115-152).  The source first iterates over req.chains.clone().unwrap() and
req.types.clone().unwrap() (building two strings it never uses), so a None
in either field aborts before anything else; then it calls
construct_url_from_req_object(req).expect(...), so a missing wallet aborts
as well; only then is the GET request issued with the constructed URL. -/
def submit_cielo_get_request (req : CieloRequest) : SubmitResult :=
  match req.chains with
  | none => SubmitResult.panics "called unwrap on a None value: req.chains"
  | some _ =>
    match req.types with
    | none => SubmitResult.panics "called unwrap on a None value: req.types"
    | some _ =>
      match construct_url_from_req_object req with
      | Except.error e =>
          SubmitResult.panics ("Error constructing GET request query values (URL): " ++ e)
      | Except.ok url => SubmitResult.sendsRequest url

/-- Spec-side rendering of one optional field: its slice when present,
nothing when absent. -/
def optCat {α : Type} (o : Option α) (slice : α → String) : String :=
  match o with
  | some a => slice a
  | none => ""

/-- Query segment contributed by the wallet field. -/
def walletSegment (w : String) : String := "wallet=" ++ w

/-- Query segment contributed by the limit field. -/
def limitSegment (o : Option Nat) : String := optCat o (fun n => "&limit=" ++ toString n)

/-- Query segment contributed by the list field. -/
def listSegment (o : Option Nat) : String := optCat o (fun n => "&list=" ++ toString n)

/-- Query segment contributed by the chains field. -/
def chainsSegment (o : Option (List Chain)) : String :=
  optCat o (fun l => joinParamList "&chains=" (l.map Chain.to_get_format))

/-- Query segment contributed by the types field. -/
def typesSegment (o : Option (List TxType)) : String :=
  optCat o (fun l => joinParamList "&txTypes=" (l.map TxType.to_get_format))

/-- Query segment contributed by the tokens field. -/
def tokensSegment (o : Option (List String)) : String :=
  optCat o (fun l => joinParamList "&tokens=" l)

/-- Query segment contributed by the min_usd field. -/
def minUsdSegment (o : Option Nat) : String := optCat o (fun n => "&minUSD=" ++ toString n)

/-- Query segment contributed by the new_trades field. -/
def newTradesSegment (o : Option Bool) : String :=
  optCat o (fun b => if b then "&newTrades=true" else "&newTrades=false")

/-- Query segment contributed by the start_from field. -/
def startFromSegment (o : Option String) : String := optCat o (fun s => "&startFrom=" ++ s)

/-- Query segment contributed by the from_timestamp field. -/
def fromTimestampSegment (o : Option Int) : String :=
  optCat o (fun t => "&fromTimestamp=" ++ toString t)

/-- Query segment contributed by the to_timestamp field. -/
def toTimestampSegment (o : Option Int) : String :=
  optCat o (fun t => "&toTimestamp=" ++ toString t)

/-- The serialized URL as a flat concatenation of per-field segments, in the
fixed field order of the serializer. -/
def urlOf (req : CieloRequest) (w : String) : String :=
  BASE_URL ++ walletSegment w ++ limitSegment req.limit ++ listSegment req.list
    ++ chainsSegment req.chains ++ typesSegment req.types ++ tokensSegment req.tokens
    ++ minUsdSegment req.min_usd ++ newTradesSegment req.new_trades
    ++ startFromSegment req.start_from ++ fromTimestampSegment req.from_timestamp
    ++ toTimestampSegment req.to_timestamp

/-- The substring-containment relation on strings. -/
def containsSubstring (pat s : String) : Prop := ∃ pre post, s = pre ++ pat ++ post

theorem pushOpt_eq_optCat {α : Type} (q : String) (o : Option α) (f : α → String) :
    pushOpt q o f = q ++ optCat o f := by
  cases o with
  | none => simp [pushOpt, optCat, String.append_empty]
  | some a => rfl

theorem construct_eq_urlOf (req : CieloRequest) (w : String) (h : req.wallet = some w) :
    construct_url_from_req_object req = Except.ok (urlOf req w) := by
  obtain ⟨wo, li, ls, ch, ty, tk, mu, nt, sf, ft, tt⟩ := req
  cases wo with
  | none => simp at h
  | some w2 =>
    obtain rfl : w2 = w := Option.some.inj h
    simp only [construct_url_from_req_object, urlOf, pushOpt_eq_optCat, walletSegment,
      limitSegment, listSegment, chainsSegment, typesSegment, tokensSegment, minUsdSegment,
      newTradesSegment, startFromSegment, fromTimestampSegment, toTimestampSegment]

theorem construct_err_of_wallet_none (req : CieloRequest) (h : req.wallet = none) :
    construct_url_from_req_object req = Except.error "Wallet address is required" := by
  obtain ⟨wo, li, ls, ch, ty, tk, mu, nt, sf, ft, tt⟩ := req
  cases wo with
  | none => rfl
  | some w2 => simp at h

/-- The end-to-end example request of the spec: wallet 0xABC, limit 10,
chains [Ethereum], types [Swap], min_usd 100, everything else absent. -/
def exampleRequest : CieloRequest :=
  { wallet := some "0xABC", limit := some 10, list := none,
    chains := some [Chain.Ethereum], types := some [TxType.Swap], tokens := none,
    min_usd := some 100, new_trades := none, start_from := none,
    from_timestamp := none, to_timestamp := none }

theorem optCat_none {α : Type} (f : α → String) : optCat (none : Option α) f = "" := rfl

theorem optCat_some {α : Type} (a : α) (f : α → String) : optCat (some a) f = f a := rfl

/-- A request with the wallet missing but every other field populated. -/
def walletNoneRequest : CieloRequest :=
  { wallet := none, limit := some 5, list := some 2,
    chains := some [Chain.Solana], types := some [TxType.Swap], tokens := some ["USDC"],
    min_usd := some 1, new_trades := some true, start_from := some "cursor",
    from_timestamp := some 1, to_timestamp := some 2 }

/-- A request with only the wallet present. -/
def walletOnlyRequest : CieloRequest :=
  { wallet := some "0xABC", limit := none, list := none, chains := none, types := none,
    tokens := none, min_usd := none, new_trades := none, start_from := none,
    from_timestamp := none, to_timestamp := none }

/-- A request exercising every optional scalar field at once. -/
def allScalarsRequest : CieloRequest :=
  { wallet := some "w", limit := some 7, list := some 3, chains := none, types := none,
    tokens := none, min_usd := some 42, new_trades := none, start_from := some "pg",
    from_timestamp := some 100, to_timestamp := some (-5) }

/-- A request whose chains list is the three-element example of the spec. -/
def listExampleRequest : CieloRequest :=
  { wallet := some "w", limit := none, list := none,
    chains := some [Chain.Solana, Chain.Ethereum, Chain.EvmChain "polygon"], types := none,
    tokens := none, min_usd := none, new_trades := none, start_from := none,
    from_timestamp := none, to_timestamp := none }

/-- A request with new_trades set to true and nothing else optional. -/
def newTradesRequest : CieloRequest :=
  { wallet := some "w", limit := none, list := none, chains := none, types := none,
    tokens := none, min_usd := none, new_trades := some true, start_from := none,
    from_timestamp := none, to_timestamp := none }

/-- A request whose wallet string smuggles the newTrades parameter text while
the new_trades field itself is absent. -/
def injectionRequest : CieloRequest :=
  { wallet := some "w&newTrades=true", limit := none, list := none, chains := none,
    types := none, tokens := none, min_usd := none, new_trades := none, start_from := none,
    from_timestamp := none, to_timestamp := none }

/-- A request with chains absent but every other field, wallet included, present. -/
def chainsNoneRequest : CieloRequest :=
  { wallet := some "w", limit := some 1, list := some 1, chains := none,
    types := some [TxType.Swap], tokens := some ["t"], min_usd := some 1,
    new_trades := some false, start_from := some "s",
    from_timestamp := some 1, to_timestamp := some 1 }

/-- Claim C1: if the wallet field is absent, serialization fails with the
validation error naming the wallet field, whatever the other fields hold, and
submit_cielo_get_request never reaches the network call. -/
theorem missing_wallet_fails (req : CieloRequest) (h : req.wallet = none) :
    construct_url_from_req_object req = Except.error "Wallet address is required" ∧
    containsSubstring "Wallet" "Wallet address is required" ∧
    attemptsNetworkCall (submit_cielo_get_request req) = false := by
  refine ⟨construct_err_of_wallet_none req h, ⟨"", " address is required", rfl⟩, ?_⟩
  obtain ⟨wo, li, ls, ch, ty, tk, mu, nt, sf, ft, tt⟩ := req
  cases wo with
  | some w2 => simp at h
  | none =>
    cases ch with
    | none => rfl
    | some c =>
      cases ty with
      | none => rfl
      | some t => rfl

/-- Witness for C1 at a concrete request with every other field populated. -/
theorem missing_wallet_fails_witness :
    construct_url_from_req_object walletNoneRequest =
      Except.error "Wallet address is required" ∧
    containsSubstring "Wallet" "Wallet address is required" ∧
    attemptsNetworkCall (submit_cielo_get_request walletNoneRequest) = false :=
  missing_wallet_fails walletNoneRequest rfl

/-- Claim C2: with the wallet present and every optional field absent, the
serialized URL is exactly the base endpoint followed by wallet= and the
address, nothing else. -/
theorem wallet_only_url (req : CieloRequest) (w : String)
    (hw : req.wallet = some w) (h1 : req.limit = none) (h2 : req.list = none)
    (h3 : req.chains = none) (h4 : req.types = none) (h5 : req.tokens = none)
    (h6 : req.min_usd = none) (h7 : req.new_trades = none) (h8 : req.start_from = none)
    (h9 : req.from_timestamp = none) (h10 : req.to_timestamp = none) :
    construct_url_from_req_object req = Except.ok (BASE_URL ++ "wallet=" ++ w) := by
  rw [construct_eq_urlOf req w hw]
  simp only [urlOf, h1, h2, h3, h4, h5, h6, h7, h8, h9, h10, walletSegment, limitSegment,
    listSegment, chainsSegment, typesSegment, tokensSegment, minUsdSegment, newTradesSegment,
    startFromSegment, fromTimestampSegment, toTimestampSegment, optCat_none,
    String.append_empty, String.append_assoc]

/-- Witness for C2 at the wallet 0xABC. -/
theorem wallet_only_url_witness :
    construct_url_from_req_object walletOnlyRequest =
      Except.ok (BASE_URL ++ "wallet=" ++ "0xABC") :=
  wallet_only_url walletOnlyRequest "0xABC" rfl rfl rfl rfl rfl rfl rfl rfl rfl rfl rfl

/-- Claim C3: every accepted request serializes to the per-field segments in
the fixed order wallet, limit, list, chains, types, tokens, minUSD, newTrades,
startFrom, fromTimestamp, toTimestamp, absent fields contributing nothing; and
the example request of the spec serializes to exactly the documented URL. -/
theorem field_order_fixed (req : CieloRequest) (w : String) (hw : req.wallet = some w) :
    construct_url_from_req_object req =
      Except.ok (BASE_URL ++ walletSegment w ++ limitSegment req.limit ++ listSegment req.list
        ++ chainsSegment req.chains ++ typesSegment req.types ++ tokensSegment req.tokens
        ++ minUsdSegment req.min_usd ++ newTradesSegment req.new_trades
        ++ startFromSegment req.start_from ++ fromTimestampSegment req.from_timestamp
        ++ toTimestampSegment req.to_timestamp) ∧
    construct_url_from_req_object exampleRequest =
      Except.ok "https://feed-api.cielo.finance/api/v1/feed?wallet=0xABC&limit=10&chains=ethereum&txTypes=swap&minUSD=100" :=
  ⟨construct_eq_urlOf req w hw, rfl⟩

/-- Witness for C3 at the example request of the spec. -/
theorem field_order_fixed_witness :
    construct_url_from_req_object exampleRequest =
      Except.ok "https://feed-api.cielo.finance/api/v1/feed?wallet=0xABC&limit=10&chains=ethereum&txTypes=swap&minUSD=100" :=
  (field_order_fixed exampleRequest "0xABC" rfl).2

/-- Claim C4: every present non-empty list field contributes its parameter
assignment followed by the first element and then a comma before each later
element, with no trailing separator; the three-chain example of the spec
yields the substring chains=solana,ethereum,polygon with the EvmChain slug
verbatim. -/
theorem list_fields_comma_joined (req : CieloRequest) (w u : String)
    (hw : req.wallet = some w)
    (hu : construct_url_from_req_object req = Except.ok u) :
    (∀ c cs, req.chains = some (c :: cs) →
      containsSubstring ("&chains=" ++ Chain.to_get_format c
        ++ joinCommaTail (cs.map Chain.to_get_format)) u) ∧
    (∀ t ts, req.types = some (t :: ts) →
      containsSubstring ("&txTypes=" ++ TxType.to_get_format t
        ++ joinCommaTail (ts.map TxType.to_get_format)) u) ∧
    (∀ s ss, req.tokens = some (s :: ss) →
      containsSubstring ("&tokens=" ++ s ++ joinCommaTail ss) u) ∧
    (req.chains = some [Chain.Solana, Chain.Ethereum, Chain.EvmChain "polygon"] →
      containsSubstring "&chains=solana,ethereum,polygon" u) := by
  have hurl : u = urlOf req w := by
    have h2 := construct_eq_urlOf req w hw
    rw [hu] at h2
    exact Except.ok.inj h2
  subst hurl
  refine ⟨?_, ?_, ?_, ?_⟩
  · intro c cs hc
    have hseg : chainsSegment (some (c :: cs)) =
        "&chains=" ++ Chain.to_get_format c ++ joinCommaTail (cs.map Chain.to_get_format) := rfl
    exact ⟨BASE_URL ++ walletSegment w ++ limitSegment req.limit ++ listSegment req.list,
      typesSegment req.types ++ tokensSegment req.tokens ++ minUsdSegment req.min_usd
        ++ newTradesSegment req.new_trades ++ startFromSegment req.start_from
        ++ fromTimestampSegment req.from_timestamp ++ toTimestampSegment req.to_timestamp,
      by simp only [urlOf, hc, hseg, String.append_assoc]⟩
  · intro t ts ht
    have hseg : typesSegment (some (t :: ts)) =
        "&txTypes=" ++ TxType.to_get_format t ++ joinCommaTail (ts.map TxType.to_get_format) := rfl
    exact ⟨BASE_URL ++ walletSegment w ++ limitSegment req.limit ++ listSegment req.list
        ++ chainsSegment req.chains,
      tokensSegment req.tokens ++ minUsdSegment req.min_usd
        ++ newTradesSegment req.new_trades ++ startFromSegment req.start_from
        ++ fromTimestampSegment req.from_timestamp ++ toTimestampSegment req.to_timestamp,
      by simp only [urlOf, ht, hseg, String.append_assoc]⟩
  · intro s ss hs
    have hseg : tokensSegment (some (s :: ss)) =
        "&tokens=" ++ s ++ joinCommaTail ss := rfl
    exact ⟨BASE_URL ++ walletSegment w ++ limitSegment req.limit ++ listSegment req.list
        ++ chainsSegment req.chains ++ typesSegment req.types,
      minUsdSegment req.min_usd ++ newTradesSegment req.new_trades
        ++ startFromSegment req.start_from ++ fromTimestampSegment req.from_timestamp
        ++ toTimestampSegment req.to_timestamp,
      by simp only [urlOf, hs, hseg, String.append_assoc]⟩
  · intro hc
    have hseg : chainsSegment (some [Chain.Solana, Chain.Ethereum, Chain.EvmChain "polygon"]) =
        "&chains=solana,ethereum,polygon" := rfl
    exact ⟨BASE_URL ++ walletSegment w ++ limitSegment req.limit ++ listSegment req.list,
      typesSegment req.types ++ tokensSegment req.tokens ++ minUsdSegment req.min_usd
        ++ newTradesSegment req.new_trades ++ startFromSegment req.start_from
        ++ fromTimestampSegment req.from_timestamp ++ toTimestampSegment req.to_timestamp,
      by simp only [urlOf, hc, hseg, String.append_assoc]⟩

/-- Witness for C4 at the three-chain example request. -/
theorem list_fields_comma_joined_witness :
    containsSubstring "&chains=solana,ethereum,polygon"
      "https://feed-api.cielo.finance/api/v1/feed?wallet=w&chains=solana,ethereum,polygon" :=
  (list_fields_comma_joined listExampleRequest "w"
    "https://feed-api.cielo.finance/api/v1/feed?wallet=w&chains=solana,ethereum,polygon"
    rfl rfl).2.2.2 rfl

/-- Claim C5: each present optional scalar appends exactly one segment with
the exact parameter names limit, list, minUSD, startFrom, fromTimestamp,
toTimestamp, and an absent field contributes the empty string. -/
theorem scalar_params_exact_names (req : CieloRequest) (w : String)
    (hw : req.wallet = some w) :
    construct_url_from_req_object req =
      Except.ok (BASE_URL ++ ("wallet=" ++ w)
        ++ optCat req.limit (fun n => "&limit=" ++ toString n)
        ++ optCat req.list (fun n => "&list=" ++ toString n)
        ++ chainsSegment req.chains ++ typesSegment req.types ++ tokensSegment req.tokens
        ++ optCat req.min_usd (fun n => "&minUSD=" ++ toString n)
        ++ newTradesSegment req.new_trades
        ++ optCat req.start_from (fun s => "&startFrom=" ++ s)
        ++ optCat req.from_timestamp (fun t => "&fromTimestamp=" ++ toString t)
        ++ optCat req.to_timestamp (fun t => "&toTimestamp=" ++ toString t)) ∧
    optCat (none : Option Nat) (fun n => "&limit=" ++ toString n) = "" :=
  ⟨construct_eq_urlOf req w hw, rfl⟩

/-- Witness for C5 at a request carrying every optional scalar. -/
theorem scalar_params_exact_names_witness :
    construct_url_from_req_object allScalarsRequest =
      Except.ok "https://feed-api.cielo.finance/api/v1/feed?wallet=w&limit=7&list=3&minUSD=42&startFrom=pg&fromTimestamp=100&toTimestamp=-5" := by
  rw [(scalar_params_exact_names allScalarsRequest "w" rfl).1]
  rfl

/-- Claim C6 counterexample: a request whose new_trades field is None can
still serialize to a URL containing the substring newTrades=true, because the
free-form wallet string is copied into the URL verbatim. -/
theorem newTrades_substring_injection_cex :
    injectionRequest.new_trades = none ∧
    construct_url_from_req_object injectionRequest =
      Except.ok ("https://feed-api.cielo.finance/api/v1/feed?wallet=w"
        ++ "&newTrades=true" ++ "") ∧
    containsSubstring "&newTrades=true"
      "https://feed-api.cielo.finance/api/v1/feed?wallet=w&newTrades=true" :=
  ⟨rfl, rfl, ⟨"https://feed-api.cielo.finance/api/v1/feed?wallet=w", "", rfl⟩⟩

/-- Claim C6 (amended): if new_trades is Some true the URL contains
newTrades=true, if Some false it contains newTrades=false, and if None the
serializer appends nothing for this field, the URL being exactly the
concatenation of the remaining segments (the substring can still appear when
a free-form string field smuggles it in). -/
theorem newTrades_segment_spec (req : CieloRequest) (w u : String)
    (hw : req.wallet = some w)
    (hu : construct_url_from_req_object req = Except.ok u) :
    (req.new_trades = some true → containsSubstring "&newTrades=true" u) ∧
    (req.new_trades = some false → containsSubstring "&newTrades=false" u) ∧
    (req.new_trades = none →
      u = BASE_URL ++ walletSegment w ++ limitSegment req.limit ++ listSegment req.list
        ++ chainsSegment req.chains ++ typesSegment req.types ++ tokensSegment req.tokens
        ++ minUsdSegment req.min_usd ++ startFromSegment req.start_from
        ++ fromTimestampSegment req.from_timestamp ++ toTimestampSegment req.to_timestamp) := by
  have hurl : u = urlOf req w := by
    have h2 := construct_eq_urlOf req w hw
    rw [hu] at h2
    exact Except.ok.inj h2
  subst hurl
  refine ⟨?_, ?_, ?_⟩
  · intro hn
    have hseg : newTradesSegment (some true) = "&newTrades=true" := rfl
    exact ⟨BASE_URL ++ walletSegment w ++ limitSegment req.limit ++ listSegment req.list
        ++ chainsSegment req.chains ++ typesSegment req.types ++ tokensSegment req.tokens
        ++ minUsdSegment req.min_usd,
      startFromSegment req.start_from ++ fromTimestampSegment req.from_timestamp
        ++ toTimestampSegment req.to_timestamp,
      by simp only [urlOf, hn, hseg, String.append_assoc]⟩
  · intro hn
    have hseg : newTradesSegment (some false) = "&newTrades=false" := rfl
    exact ⟨BASE_URL ++ walletSegment w ++ limitSegment req.limit ++ listSegment req.list
        ++ chainsSegment req.chains ++ typesSegment req.types ++ tokensSegment req.tokens
        ++ minUsdSegment req.min_usd,
      startFromSegment req.start_from ++ fromTimestampSegment req.from_timestamp
        ++ toTimestampSegment req.to_timestamp,
      by simp only [urlOf, hn, hseg, String.append_assoc]⟩
  · intro hn
    simp only [urlOf, hn, newTradesSegment, optCat_none, String.append_empty]

/-- Witness for the amended C6 at a request with new_trades set to true. -/
theorem newTrades_segment_spec_witness :
    containsSubstring "&newTrades=true"
      "https://feed-api.cielo.finance/api/v1/feed?wallet=w&newTrades=true" :=
  (newTrades_segment_spec newTradesRequest "w"
    "https://feed-api.cielo.finance/api/v1/feed?wallet=w&newTrades=true" rfl rfl).1 rfl

/-- The twenty lowercase snake_case tokens of the transaction-type mapping. -/
def txTypeTokens : List String :=
  ["bridge", "contract_creation", "contract_interaction", "flashloan", "lending", "lp",
   "nft_lending", "nft_liquidation", "nft_mint", "nft_sweep", "nft_trade", "nft_transfer",
   "option", "perp", "reward", "staking", "sudo_pool", "swap", "transfer", "wrap"]

/-- Claim C7 counterexample: the TxType enumeration does not have 19
variants — its cardinality is 20. -/
theorem txType_card_ne_19 : Fintype.card TxType ≠ 19 := by decide

/-- Claim C7 (amended): TxType is a closed enumeration of exactly 20
variants, and to_get_format is a total, fixed, injective mapping into the
20-token set of lowercase snake_case strings, with no fallback case. -/
theorem txType_twenty_variants_total_map :
    Fintype.card TxType = 20 ∧
    (∀ t : TxType, TxType.to_get_format t ∈ txTypeTokens) ∧
    Function.Injective TxType.to_get_format := by
  refine ⟨by decide, by decide, by decide⟩

/-- Claim C8: a present-but-empty chains, types or tokens list emits no
parameter segment — serialization returns exactly what it returns for the
same request with that field absent (and in particular does not fail beyond
the wallet check). -/
theorem empty_list_fields_omit_segment (req : CieloRequest) :
    construct_url_from_req_object { req with chains := some [] } =
      construct_url_from_req_object { req with chains := none } ∧
    construct_url_from_req_object { req with types := some [] } =
      construct_url_from_req_object { req with types := none } ∧
    construct_url_from_req_object { req with tokens := some [] } =
      construct_url_from_req_object { req with tokens := none } := by
  obtain ⟨wo, li, ls, ch, ty, tk, mu, nt, sf, ft, tt⟩ := req
  cases wo with
  | none => exact ⟨rfl, rfl, rfl⟩
  | some w =>
    refine ⟨?_, ?_, ?_⟩ <;>
      · rw [construct_eq_urlOf _ w rfl, construct_eq_urlOf _ w rfl]
        simp only [urlOf, chainsSegment, typesSegment, tokensSegment, optCat_none,
          optCat_some, List.map_nil, joinParamList]

/-- Claim C9: serialization is deterministic — equal request values
serialize to byte-identical results. -/
theorem serialization_deterministic (r1 r2 : CieloRequest) (h : r1 = r2) :
    construct_url_from_req_object r1 = construct_url_from_req_object r2 := by rw [h]

/-- Witness for C9 at the example request. -/
theorem serialization_deterministic_witness :
    construct_url_from_req_object exampleRequest =
      construct_url_from_req_object exampleRequest :=
  serialization_deterministic exampleRequest exampleRequest rfl

/-- Claim C10: submit_cielo_get_request unconditionally unwraps chains and
types, so whenever either field is None the call aborts before any network
activity, even with the wallet and every other field present; the network
call is reached only when both fields are Some. -/
theorem submit_unwraps_chains_types (req : CieloRequest) :
    (req.chains = none ∨ req.types = none →
      (submit_cielo_get_request req).isPanics = true ∧
      attemptsNetworkCall (submit_cielo_get_request req) = false) ∧
    ((submit_cielo_get_request req).isPanics = false →
      req.chains.isSome = true ∧ req.types.isSome = true) := by
  obtain ⟨wo, li, ls, ch, ty, tk, mu, nt, sf, ft, tt⟩ := req
  cases ch with
  | none => exact ⟨fun _ => ⟨rfl, rfl⟩, fun h => nomatch h⟩
  | some c =>
    cases ty with
    | none => exact ⟨fun _ => ⟨rfl, rfl⟩, fun h => nomatch h⟩
    | some t =>
      refine ⟨?_, fun _ => ⟨rfl, rfl⟩⟩
      rintro (h | h) <;> simp at h

/-- Witness for C10 at a request with chains absent and all else present. -/
theorem submit_unwraps_chains_types_witness :
    (submit_cielo_get_request chainsNoneRequest).isPanics = true ∧
    attemptsNetworkCall (submit_cielo_get_request chainsNoneRequest) = false :=
  (submit_unwraps_chains_types chainsNoneRequest).1 (Or.inl rfl)

end CieloApi
